import Mathlib

/-!
Verification of the facemask detection-to-overlay geometry pipeline.

Shallow embedding of `main.go` of `esimov/facemask`.  The repository ships
two variants of `drawFaces` (the published one, and a diagnostic variant
that additionally renders landmark markers and applies an empirical `0.8`
horizontal correction); both are embedded below as `V1` and `V2`.

Floating point (`float64` / `float32`) is modelled over an arbitrary
`LinearOrderedField K` with a `FloorRing` structure (for Go's truncating
`int(...)` conversion); the external `math.Atan2` and `math.Pi` are passed
in as abstract parameters, since the math library is an external
collaborator.  Go's truncating integer division (`/` on `int`) is
`Int.tdiv`.  The external pupil/landmark locators are oracles: the
per-face step takes their results as arguments, exactly as `drawFaces`
consumes them.  Canvas mutations are modelled as a trace of `CanvasOp`s,
in the order the Go code issues them.
-/

namespace Facemask

/-- Go's `int(x)` conversion of a floating value: truncation toward zero. -/
def trunc {K : Type} [LinearOrderedField K] [FloorRing K] (x : K) : ℤ :=
  if 0 ≤ x then ⌊x⌋ else -⌊-x⌋

/-- A landmark / pupil point as returned by the pigo locators
(`pigo.Puploc`: `Row`, `Col` integers, `Scale` a float). -/
structure Pt (K : Type) where
  row : ℤ
  col : ℤ
  scale : K

/-- The `point` struct of the diagnostic variant (`main.go` variant 2):
`p1 = point{x: flp.Row, y: flp.Col}`. -/
structure point where
  x : ℤ
  y : ℤ

/-- A clustered detection (`pigo.Detection`): `Row`, `Col`, `Scale`
integers and the quality score `Q` (a `float32`). -/
structure Detection (K : Type) where
  row : ℤ
  col : ℤ
  scale : ℤ
  q : K

/-- An RGBA colour as used with `gg.NewSolidPattern`. -/
structure Color where
  r : ℕ
  g : ℕ
  b : ℕ
  a : ℕ

/-- The alignment transform produced per qualifying face: the rotation
angle handed to `imaging.Rotate`, the floating `width`/`height`, the
integer dimensions handed to `imaging.Resize`, and the draw origin. -/
structure Transform (K : Type) where
  angle : K
  width : K
  height : K
  resizedW : ℤ
  resizedH : ℤ
  tx : ℤ
  ty : ℤ

/-- One canvas / IO operation issued by `drawFaces`, in program order:
`strokeRect` is the `DrawRectangle`+`SetLineWidth`+`SetStrokeStyle`+`Stroke`
group, `openMask` the `os.OpenFile("assets/facemask.png")` + `png.Decode`
pair, `marker` a `drawDetections` landmark dot (diagnostic variant only),
and `drawImage` the final resize/rotate/composite of the mask. -/
inductive CanvasOp (K : Type) where
  | strokeRect (x y w h lw : K) (c : Color)
  | openMask
  | marker (x y r : K) (c : Color)
  | drawImage (t : Transform K)

/-- `main.go` line 241 / 600: the lean angle between the two mouth points,
`angle := 1 - (math.Atan2(float64(flp2.Col-flp1.Col), float64(flp2.Row-flp1.Row)) * 180 / math.Pi / 90)`. -/
def maskAngle {K : Type} [LinearOrderedField K]
    (atan2 : ℤ → ℤ → K) (pi : K) (p1 p2 : Pt K) : K :=
  1 - atan2 (p2.col - p1.col) (p2.row - p1.row) * 180 / pi / 90

/-- The diagnostic variant computes the same expression through the
`point{x: Row, y: Col}` struct:
`angle := 1 - (math.Atan2(float64(p2.y-p1.y), float64(p2.x-p1.x)) * 180 / math.Pi / 90)`. -/
def maskAngleV2 {K : Type} [LinearOrderedField K]
    (atan2 : ℤ → ℤ → K) (pi : K) (p1 p2 : point) : K :=
  1 - atan2 (p2.y - p1.y) (p2.x - p1.x) * 180 / pi / 90

/-- Modelled from the spec: `angle = 1 − (atan2(p2.col − p1.col,
p2.row − p1.row) · 180/π / 90)` — the specification's statement of the
rotation-angle formula, to be compared with the source's `maskAngle`. -/
def specRotationAngle {K : Type} [LinearOrderedField K]
    (atan2 : ℤ → ℤ → K) (pi : K) (p1 p2 : Pt K) : K :=
  1 - atan2 (p2.col - p1.col) (p2.row - p1.row) * 180 / pi / 90

/-- `main.go` lines 244-250 / 605-611: the conditional rescale.  The
`imgScale` variable is declared outside the face loop, so when the
condition is false the previous value (default `0`) is retained. -/
def updateImgScale {K : Type} [LinearOrderedField K]
    (dx dy faceScale : ℤ) (imgScale : K) : K :=
  if faceScale < dx ∨ faceScale < dy then
    if dy < dx then (faceScale : K) / (dx : K)
    else (faceScale : K) / (dy : K)
  else imgScale

/-- `main.go` lines 240-257 (published variant): the per-face alignment,
returning the transform together with the `imgScale` state left behind
for the next iteration.
`tx := face.Col - int(width/2)`;
`ty := flp1.Row + (flp1.Row-flp2.Row)/2 - int(height/2)`. -/
def alignFaceV1 {K : Type} [LinearOrderedField K] [FloorRing K]
    (atan2 : ℤ → ℤ → K) (pi : K) (dx dy : ℤ)
    (face : Detection K) (flp1 flp2 : Pt K) (imgScale : K) :
    Transform K × K :=
  let angle := maskAngle atan2 pi flp1 flp2
  let s := updateImgScale dx dy face.scale imgScale
  let width := (dx : K) * s * 0.75
  let height := (dy : K) * s * 0.75
  let tx := face.col - trunc (width / 2)
  let ty := flp1.row + (flp1.row - flp2.row).tdiv 2 - trunc (height / 2)
  (⟨angle, width, height, trunc width, trunc height, tx, ty⟩, s)

/-- `main.go` lines 599-615 (diagnostic variant): identical except for the
empirically corrected horizontal origin, which is taken from the face's
ROW coordinate: `tx := face.Row - int(width/2*0.8)`. -/
def alignFaceV2 {K : Type} [LinearOrderedField K] [FloorRing K]
    (atan2 : ℤ → ℤ → K) (pi : K) (dx dy : ℤ)
    (face : Detection K) (p1 p2 : point) (imgScale : K) :
    Transform K × K :=
  let angle := maskAngleV2 atan2 pi p1 p2
  let s := updateImgScale dx dy face.scale imgScale
  let width := (dx : K) * s * 0.75
  let height := (dy : K) * s * 0.75
  let tx := face.row - trunc (width / 2 * 0.8)
  let ty := p1.x + (p1.x - p2.x).tdiv 2 - trunc (height / 2)
  (⟨angle, width, height, trunc width, trunc height, tx, ty⟩, s)

/-- The red face-box outline issued for every qualifying face
(`main.go` lines 198-206 / 535-543): `DrawRectangle(float64(face.Col-face.Scale/2),
float64(face.Row-face.Scale/2), float64(face.Scale), float64(face.Scale))`,
line width `2.0`, solid `RGBA{255,0,0,255}`, `Stroke()`. -/
def faceBoxRect {K : Type} [LinearOrderedField K] (face : Detection K) : CanvasOp K :=
  .strokeRect ((face.col - face.scale.tdiv 2 : ℤ) : K)
    ((face.row - face.scale.tdiv 2 : ℤ) : K)
    (face.scale : K) (face.scale : K) 2 ⟨255, 0, 0, 255⟩

/-- One iteration of the published `drawFaces` loop body (`main.go`
lines 196-258) for one detection.  The landmark results `flp1` (flag
`false`) and `flp2` (flag `true`) are the oracle answers of the external
`FindLandmarkPoints` calls.  Returns the canvas/IO operations issued and
the `imgScale` state handed to the next iteration. -/
def drawFaceV1 {K : Type} [LinearOrderedField K] [FloorRing K]
    (atan2 : ℤ → ℤ → K) (pi : K) (dx dy : ℤ)
    (face : Detection K) (flp1 flp2 : Pt K) (imgScale : K) :
    List (CanvasOp K) × K :=
  if face.q > 5 then
    let ts := alignFaceV1 atan2 pi dx dy face flp1 flp2 imgScale
    ([faceBoxRect face, .openMask, .drawImage ts.1], ts.2)
  else ([], imgScale)

/-- One iteration of the diagnostic `drawFaces` loop body (`main.go`
lines 533-623): additionally draws a blue marker at each landmark whose
coordinates are both strictly positive, and uses the V2 alignment.  The
landmarks are repackaged as `point{x: flp.Row, y: flp.Col}` before the
geometry, exactly as in the source. -/
def drawFaceV2 {K : Type} [LinearOrderedField K] [FloorRing K]
    (atan2 : ℤ → ℤ → K) (pi : K) (dx dy : ℤ)
    (face : Detection K) (flpF flpT : Pt K) (imgScale : K) :
    List (CanvasOp K) × K :=
  if face.q > 5 then
    let m1 : List (CanvasOp K) :=
      if flpF.row > 0 ∧ flpF.col > 0 then
        [.marker (flpF.col : K) (flpF.row : K) (flpF.scale * 0.5) ⟨0, 0, 255, 255⟩]
      else []
    let p1 : point := ⟨flpF.row, flpF.col⟩
    let m2 : List (CanvasOp K) :=
      if flpT.row > 0 ∧ flpT.col > 0 then
        [.marker (flpT.col : K) (flpT.row : K) (flpT.scale * 0.5) ⟨0, 0, 255, 255⟩]
      else []
    let p2 : point := ⟨flpT.row, flpT.col⟩
    let ts := alignFaceV2 atan2 pi dx dy face p1 p2 imgScale
    ([faceBoxRect face] ++ m1 ++ m2 ++ [.openMask, .drawImage ts.1], ts.2)
  else ([], imgScale)

/-- The full `drawFaces` loop of the published variant over the clustered
detection list, threading the `imgScale` state and concatenating the
issued operations.  `lm` is the oracle giving each face's two landmark
results. -/
def drawFacesV1 {K : Type} [LinearOrderedField K] [FloorRing K]
    (atan2 : ℤ → ℤ → K) (pi : K) (dx dy : ℤ)
    (lm : Detection K → Pt K × Pt K) :
    List (Detection K) → K → List (CanvasOp K) × K
  | [], imgScale => ([], imgScale)
  | face :: rest, imgScale =>
    let step := drawFaceV1 atan2 pi dx dy face (lm face).1 (lm face).2 imgScale
    let further := drawFacesV1 atan2 pi dx dy lm rest step.2
    (step.1 ++ further.1, further.2)

/-- Number of `openMask` operations (mask-asset open + decode) in a trace. -/
def countOpenMask {K : Type} : List (CanvasOp K) → ℕ
  | [] => 0
  | .openMask :: rest => countOpenMask rest + 1
  | _ :: rest => countOpenMask rest

/-- Whether a trace contains a mask composite (`DrawImage`) operation. -/
def hasDrawImage {K : Type} (ops : List (CanvasOp K)) : Prop :=
  ∃ t, CanvasOp.drawImage t ∈ ops

/-- `main.go` lines 87-89: the scale-factor validation in `main`, run
before any detection work; `true` means `log.Fatal` fires.  The source
check is `*scaleFactor < 1.05`, and its diagnostic message is
`"Scale factor must be greater than 1.05"`. -/
def scaleFatal {K : Type} [LinearOrderedField K] (scaleFactor : K) : Bool :=
  decide (scaleFactor < 1.05)

/-- The open flags of the destination file (`main.go` line 262 / 627):
`os.OpenFile(fd.destination, os.O_CREATE|os.O_RDWR, 0755)` — create and
read-write are set, truncate is not. -/
structure OpenFlags where
  create : Bool
  rdwr : Bool
  trunc' : Bool

/-- The flag set the source passes when opening the output path. -/
def outputOpenFlags : OpenFlags := ⟨true, true, false⟩

/-- File-system model of encoding into a file just opened with the given
flags: writing starts at offset zero; without the truncate flag, bytes of
the previous content beyond the newly written length survive. -/
def fileAfterEncode (flags : OpenFlags) (old enc : List ℕ) : List ℕ :=
  if flags.trunc' then enc else enc ++ old.drop enc.length

/-! ## Helper lemmas -/

theorem trunc_intCast {K : Type} [LinearOrderedField K] [FloorRing K] (n : ℤ) :
    trunc ((n : K)) = n := by
  unfold trunc
  rcases le_or_lt 0 ((n : K)) with h | h
  · rw [if_pos h, Int.floor_intCast]
  · rw [if_neg (not_le.mpr h), ← Int.cast_neg, Int.floor_intCast, neg_neg]

theorem trunc_eq_of_eq_intCast {K : Type} [LinearOrderedField K] [FloorRing K]
    {x : K} {n : ℤ} (h : x = (n : K)) : trunc x = n := by
  rw [h, trunc_intCast]

theorem countOpenMask_append {K : Type} (l₁ l₂ : List (CanvasOp K)) :
    countOpenMask (l₁ ++ l₂) = countOpenMask l₁ + countOpenMask l₂ := by
  induction l₁ with
  | nil => simp [countOpenMask]
  | cons op rest ih =>
    cases op with
    | strokeRect x y w h lw c => simpa [countOpenMask] using ih
    | openMask =>
      show countOpenMask (rest ++ l₂) + 1 = countOpenMask rest + 1 + countOpenMask l₂
      rw [ih]
      omega
    | marker x y r c => simpa [countOpenMask] using ih
    | drawImage t => simpa [countOpenMask] using ih

/-! ## Claims -/

/-- C1: for every qualifying face, the rotation angle passed to the
rotate step equals exactly `1 − (atan2(p2.col − p1.col, p2.row − p1.row)
· 180/π / 90)` computed from the landmark points `p1` (orientation flag
`false`) and `p2` (orientation flag `true`); both variants of the
per-face alignment use this one formula (the diagnostic variant reaches
it through the `point{x: Row, y: Col}` repackaging). -/
theorem C1_rotation_angle_formula {K : Type} [LinearOrderedField K] [FloorRing K]
    (atan2 : ℤ → ℤ → K) (pi : K) (dx dy : ℤ) (face : Detection K)
    (p1 p2 : Pt K) (s : K) :
    maskAngle atan2 pi p1 p2 = specRotationAngle atan2 pi p1 p2 ∧
    (alignFaceV1 atan2 pi dx dy face p1 p2 s).1.angle
      = specRotationAngle atan2 pi p1 p2 ∧
    (alignFaceV2 atan2 pi dx dy face ⟨p1.row, p1.col⟩ ⟨p2.row, p2.col⟩ s).1.angle
      = specRotationAngle atan2 pi p1 p2 :=
  ⟨rfl, rfl, rfl⟩

/-- C2: the rescale branch sets `imgScale` to `faceScale / max(dx, dy)`
exactly when `faceScale < dx ∨ faceScale < dy`, and otherwise leaves the
variable at its prior value (default `0`); the transform's width and
height are `dx·scale·0.75` and `dy·scale·0.75` of the possibly stale
value, so with prior value `0` and the condition false they collapse
to `0`. -/
theorem C2_conditional_rescale {K : Type} [LinearOrderedField K] [FloorRing K]
    (atan2 : ℤ → ℤ → K) (pi : K) (dx dy : ℤ) (face : Detection K)
    (p1 p2 : Pt K) (s : K) :
    updateImgScale dx dy face.scale s
      = (if face.scale < dx ∨ face.scale < dy
          then (face.scale : K) / ((max dx dy : ℤ) : K) else s) ∧
    (alignFaceV1 atan2 pi dx dy face p1 p2 s).1.width
      = (dx : K) * updateImgScale dx dy face.scale s * 0.75 ∧
    (alignFaceV1 atan2 pi dx dy face p1 p2 s).1.height
      = (dy : K) * updateImgScale dx dy face.scale s * 0.75 ∧
    (¬(face.scale < dx ∨ face.scale < dy) →
      (alignFaceV1 atan2 pi dx dy face p1 p2 0).1.width = 0 ∧
      (alignFaceV1 atan2 pi dx dy face p1 p2 0).1.height = 0) := by
  refine ⟨?_, rfl, rfl, ?_⟩
  · unfold updateImgScale
    by_cases hc : face.scale < dx ∨ face.scale < dy
    · rw [if_pos hc, if_pos hc]
      by_cases hlt : dy < dx
      · rw [if_pos hlt, max_eq_left hlt.le]
      · rw [if_neg hlt, max_eq_right (not_lt.mp hlt)]
    · rw [if_neg hc, if_neg hc]
  · intro hc
    show (dx : K) * updateImgScale dx dy face.scale 0 * 0.75 = 0 ∧
      (dy : K) * updateImgScale dx dy face.scale 0 * 0.75 = 0
    unfold updateImgScale
    rw [if_neg hc]
    constructor <;> ring

/-- Witness for C2 at a concrete input: with a 2×2 mask and face scale 5
the rescale condition is false, so with the default prior value the
computed width and height are `0`. -/
theorem C2_conditional_rescale_witness :
    ¬((5 : ℤ) < 2 ∨ (5 : ℤ) < 2) ∧
    (alignFaceV1 (fun _ _ => (0 : ℚ)) 1 2 2 ⟨0, 0, 5, 10⟩ ⟨0, 0, 0⟩ ⟨0, 0, 0⟩ 0).1.width = 0 :=
  ⟨by decide,
   ((C2_conditional_rescale (fun _ _ => (0 : ℚ)) 1 2 2 ⟨0, 0, 5, 10⟩ ⟨0, 0, 0⟩ ⟨0, 0, 0⟩ 0).2.2.2
      (by decide)).1⟩

/-- C6 (evaluation at the failing input): the source's validation is
`*scaleFactor < 1.05`, so the boundary value `1.05` passes validation and
the run proceeds, although the claim — and the program's own diagnostic
message "Scale factor must be greater than 1.05" — require the run to
abort whenever the scale factor is ≤ 1.05. -/
theorem C6_scale_validation_boundary : scaleFatal (1.05 : ℚ) = false := by
  simp [scaleFatal]

/-- C10: the destination file is opened with create and read-write flags
but without truncation, so when the previous content is longer than the
new encoding, the encoded bytes form a strict prefix and the previous
content's tail survives past it: the resulting file differs from a clean
encoding. -/
theorem C10_no_truncate_leftover_bytes :
    outputOpenFlags.trunc' = false ∧
    ∀ old enc : List ℕ, enc.length < old.length →
      fileAfterEncode outputOpenFlags old enc ≠ enc ∧
      (fileAfterEncode outputOpenFlags old enc).take enc.length = enc ∧
      (fileAfterEncode outputOpenFlags old enc).drop enc.length
        = old.drop enc.length := by
  refine ⟨rfl, fun old enc h => ⟨?_, ?_, ?_⟩⟩
  · intro heq
    have hlen := congrArg List.length heq
    simp [fileAfterEncode, outputOpenFlags] at hlen
    omega
  · show (enc ++ old.drop enc.length).take enc.length = enc
    exact List.take_left enc _
  · show (enc ++ old.drop enc.length).drop enc.length = old.drop enc.length
    exact List.drop_left enc _

/-- Witness for C10 at a concrete input: previous content `[1,2,3]`,
new encoding `[9]` — the file ends up `[9,2,3]`, not the clean `[9]`. -/
theorem C10_no_truncate_leftover_bytes_witness :
    ([9] : List ℕ).length < ([1, 2, 3] : List ℕ).length ∧
    fileAfterEncode outputOpenFlags [1, 2, 3] [9] ≠ [9] :=
  ⟨by decide, (C10_no_truncate_leftover_bytes.2 [1, 2, 3] [9] (by decide)).1⟩

/-- C4: a detection is run through the overlay pipeline — and in
particular produces the mask composite — exactly when its score is
strictly above `5.0`; a sub-threshold detection issues no canvas
operation at all and leaves the `imgScale` state untouched.  Holds in
both variants. -/
theorem C4_quality_threshold_iff {K : Type} [LinearOrderedField K] [FloorRing K]
    (atan2 : ℤ → ℤ → K) (pi : K) (dx dy : ℤ) (face : Detection K)
    (flpF flpT : Pt K) (s : K) :
    (hasDrawImage (drawFaceV1 atan2 pi dx dy face flpF flpT s).1 ↔ face.q > 5) ∧
    (hasDrawImage (drawFaceV2 atan2 pi dx dy face flpF flpT s).1 ↔ face.q > 5) ∧
    (¬face.q > 5 →
      drawFaceV1 atan2 pi dx dy face flpF flpT s = ([], s) ∧
      drawFaceV2 atan2 pi dx dy face flpF flpT s = ([], s)) := by
  by_cases h : face.q > 5
  · refine ⟨⟨fun _ => h, fun _ => ?_⟩, ⟨fun _ => h, fun _ => ?_⟩, fun hn => absurd h hn⟩
    · exact ⟨(alignFaceV1 atan2 pi dx dy face flpF flpT s).1,
        by simp [drawFaceV1, h]⟩
    · exact ⟨(alignFaceV2 atan2 pi dx dy face ⟨flpF.row, flpF.col⟩
          ⟨flpT.row, flpT.col⟩ s).1,
        by simp [drawFaceV2, h]⟩
  · refine ⟨⟨fun hi => ?_, fun hq => absurd hq h⟩,
      ⟨fun hi => ?_, fun hq => absurd hq h⟩,
      fun _ => ⟨by simp [drawFaceV1, h], by simp [drawFaceV2, h]⟩⟩
    · obtain ⟨t, ht⟩ := hi
      simp [drawFaceV1, h] at ht
    · obtain ⟨t, ht⟩ := hi
      simp [drawFaceV2, h] at ht

/-- Witness for C4 at a concrete input: a detection scoring `3` is below
the threshold and issues no canvas operation, leaving the state as it
was. -/
theorem C4_quality_threshold_iff_witness :
    ¬((3 : ℚ) > 5) ∧
    drawFaceV1 (fun _ _ => (0 : ℚ)) 1 200 200 ⟨100, 100, 80, 3⟩ ⟨0, 0, 0⟩ ⟨0, 0, 0⟩ 0
      = ([], 0) :=
  ⟨by decide,
   ((C4_quality_threshold_iff (fun _ _ => (0 : ℚ)) 1 200 200
      ⟨100, 100, 80, 3⟩ ⟨0, 0, 0⟩ ⟨0, 0, 0⟩ 0).2.2 (by decide)).1⟩

/-- C7: a degenerate landmark point (`row ≤ 0` or `col ≤ 0`) is not an
error and does not skip the face: both loop bodies still emit the full
outline / mask-open / composite trace, the diagnostic variant merely
suppresses its marker dots, and the transform that is composited is
computed from the degenerate points unchanged (the angle is the
`maskAngle` of exactly those points). -/
theorem C7_degenerate_points_propagate {K : Type} [LinearOrderedField K] [FloorRing K]
    (atan2 : ℤ → ℤ → K) (pi : K) (dx dy : ℤ) (face : Detection K)
    (flpF flpT : Pt K) (s : K) (hq : face.q > 5)
    (hd1 : flpF.row ≤ 0 ∨ flpF.col ≤ 0) (hd2 : flpT.row ≤ 0 ∨ flpT.col ≤ 0) :
    (drawFaceV1 atan2 pi dx dy face flpF flpT s).1
      = [faceBoxRect face, .openMask,
         .drawImage (alignFaceV1 atan2 pi dx dy face flpF flpT s).1] ∧
    (drawFaceV2 atan2 pi dx dy face flpF flpT s).1
      = [faceBoxRect face, .openMask,
         .drawImage (alignFaceV2 atan2 pi dx dy face ⟨flpF.row, flpF.col⟩
            ⟨flpT.row, flpT.col⟩ s).1] ∧
    (alignFaceV1 atan2 pi dx dy face flpF flpT s).1.angle
      = maskAngle atan2 pi flpF flpT := by
  have hm1 : ¬(flpF.row > 0 ∧ flpF.col > 0) := by
    rcases hd1 with h | h
    · exact fun hc => absurd hc.1 (not_lt.mpr h)
    · exact fun hc => absurd hc.2 (not_lt.mpr h)
  have hm2 : ¬(flpT.row > 0 ∧ flpT.col > 0) := by
    rcases hd2 with h | h
    · exact fun hc => absurd hc.1 (not_lt.mpr h)
    · exact fun hc => absurd hc.2 (not_lt.mpr h)
  exact ⟨by simp [drawFaceV1, hq], by simp [drawFaceV2, hq, hm1, hm2], rfl⟩

/-- Witness for C7 at a concrete input: a qualifying face with both
landmark oracles returning the degenerate point `(0, 0)` still yields the
full outline / mask-open / composite trace. -/
theorem C7_degenerate_points_propagate_witness :
    ((10 : ℚ) > 5 ∧ ((0 : ℤ) ≤ 0 ∨ (0 : ℤ) ≤ 0) ∧ ((0 : ℤ) ≤ 0 ∨ (0 : ℤ) ≤ 0)) ∧
    (drawFaceV1 (fun _ _ => (0 : ℚ)) 1 200 200 ⟨100, 100, 80, 10⟩ ⟨0, 0, 0⟩ ⟨0, 0, 0⟩ 0).1
      = [faceBoxRect ⟨100, 100, 80, 10⟩, .openMask,
         .drawImage (alignFaceV1 (fun _ _ => (0 : ℚ)) 1 200 200
            ⟨100, 100, 80, 10⟩ ⟨0, 0, 0⟩ ⟨0, 0, 0⟩ 0).1] :=
  ⟨⟨by decide, Or.inl le_rfl, Or.inl le_rfl⟩,
   (C7_degenerate_points_propagate (fun _ _ => (0 : ℚ)) 1 200 200
      ⟨100, 100, 80, 10⟩ ⟨0, 0, 0⟩ ⟨0, 0, 0⟩ 0 (by decide)
      (Or.inl le_rfl) (Or.inl le_rfl)).1⟩

/-- C9: for every qualifying face, the very first canvas operation of the
loop body — in both variants, hence in the mask-generation mode, before
any mask compositing — strokes an opaque red (`RGBA 255,0,0,255`)
rectangle of line width `2.0` with top-left corner
`(col − scale/2, row − scale/2)` and side length `scale`. -/
theorem C9_red_face_box_outline {K : Type} [LinearOrderedField K] [FloorRing K]
    (atan2 : ℤ → ℤ → K) (pi : K) (dx dy : ℤ) (face : Detection K)
    (flpF flpT : Pt K) (s : K) (hq : face.q > 5) :
    (drawFaceV1 atan2 pi dx dy face flpF flpT s).1.head?
      = some (CanvasOp.strokeRect ((face.col - face.scale.tdiv 2 : ℤ) : K)
          ((face.row - face.scale.tdiv 2 : ℤ) : K)
          (face.scale : K) (face.scale : K) 2 ⟨255, 0, 0, 255⟩) ∧
    (drawFaceV2 atan2 pi dx dy face flpF flpT s).1.head?
      = some (CanvasOp.strokeRect ((face.col - face.scale.tdiv 2 : ℤ) : K)
          ((face.row - face.scale.tdiv 2 : ℤ) : K)
          (face.scale : K) (face.scale : K) 2 ⟨255, 0, 0, 255⟩) :=
  ⟨by simp [drawFaceV1, hq, faceBoxRect],
   by simp [drawFaceV2, hq, faceBoxRect]⟩

/-- Witness for C9 at a concrete input: the qualifying face at
`(row=100, col=100, scale=80)` opens its trace with the red outline at
`(60, 60)`, side `80`. -/
theorem C9_red_face_box_outline_witness :
    ((10 : ℚ) > 5) ∧
    (drawFaceV1 (fun _ _ => (0 : ℚ)) 1 200 200 ⟨100, 100, 80, 10⟩ ⟨0, 0, 0⟩ ⟨0, 0, 0⟩ 0).1.head?
      = some (CanvasOp.strokeRect (((100 : ℤ) - (80 : ℤ).tdiv 2 : ℤ) : ℚ)
          (((100 : ℤ) - (80 : ℤ).tdiv 2 : ℤ) : ℚ) ((80 : ℤ) : ℚ) ((80 : ℤ) : ℚ)
          2 ⟨255, 0, 0, 255⟩) :=
  ⟨by decide,
   (C9_red_face_box_outline (fun _ _ => (0 : ℚ)) 1 200 200
      ⟨100, 100, 80, 10⟩ ⟨0, 0, 0⟩ ⟨0, 0, 0⟩ 0 (by decide)).1⟩

/-- C8 (amended): the mask asset is opened and decoded once per
QUALIFYING face — the open sits inside the per-face loop — so a run with
`n` qualifying detections performs `n` mask opens, not one. -/
theorem C8_mask_opened_per_qualifying_face {K : Type} [LinearOrderedField K] [FloorRing K]
    (atan2 : ℤ → ℤ → K) (pi : K) (dx dy : ℤ)
    (lm : Detection K → Pt K × Pt K) (faces : List (Detection K)) (s : K) :
    countOpenMask (drawFacesV1 atan2 pi dx dy lm faces s).1
      = (faces.filter (fun f => decide (f.q > 5))).length := by
  induction faces generalizing s with
  | nil => simp [drawFacesV1, countOpenMask]
  | cons face rest ih =>
    simp only [drawFacesV1]
    rw [countOpenMask_append, ih]
    by_cases h : face.q > 5
    · rw [List.filter_cons]
      simp [drawFaceV1, h, countOpenMask]
      omega
    · rw [List.filter_cons]
      simp [drawFaceV1, h, countOpenMask]

/-- Counterexample for C8 as stated: a run over two qualifying faces
opens and decodes the mask asset twice, not exactly once. -/
theorem C8_mask_single_open_counterexample :
    countOpenMask (drawFacesV1 (fun _ _ => (0 : ℚ)) 1 200 200
      (fun _ => (⟨0, 0, 0⟩, ⟨0, 0, 0⟩))
      [⟨100, 100, 80, 10⟩, ⟨300, 300, 80, 10⟩] 0).1 = 2 ∧ (2 : ℕ) ≠ 1 := by
  constructor
  · simp [drawFacesV1, drawFaceV1, countOpenMask]
  · decide

/-- C3 (amended): in the published variant `originX = faceCol −
trunc(width/2)` and in the variant applying the empirical `0.8`
correction `originX = faceRow − trunc(width/2 · 0.8)` (the corrected
variant anchors on the face's ROW coordinate, not `faceCol`); in both,
`originY = p1.row + (p1.row − p2.row)/2 − trunc(height/2)` with
truncating integer division. -/
theorem C3_placement_origin {K : Type} [LinearOrderedField K] [FloorRing K]
    (atan2 : ℤ → ℤ → K) (pi : K) (dx dy : ℤ) (face : Detection K)
    (flp1 flp2 : Pt K) (p1 p2 : point) (s : K) :
    (alignFaceV1 atan2 pi dx dy face flp1 flp2 s).1.tx
      = face.col - trunc ((alignFaceV1 atan2 pi dx dy face flp1 flp2 s).1.width / 2) ∧
    (alignFaceV1 atan2 pi dx dy face flp1 flp2 s).1.ty
      = flp1.row + (flp1.row - flp2.row).tdiv 2
        - trunc ((alignFaceV1 atan2 pi dx dy face flp1 flp2 s).1.height / 2) ∧
    (alignFaceV2 atan2 pi dx dy face p1 p2 s).1.tx
      = face.row - trunc ((alignFaceV2 atan2 pi dx dy face p1 p2 s).1.width / 2 * 0.8) ∧
    (alignFaceV2 atan2 pi dx dy face p1 p2 s).1.ty
      = p1.x + (p1.x - p2.x).tdiv 2
        - trunc ((alignFaceV2 atan2 pi dx dy face p1 p2 s).1.height / 2) :=
  ⟨rfl, rfl, rfl, rfl⟩

/-- Counterexample for C3 as stated: at `face = (row 0, col 100,
scale 80, score 10)` with a 200×200 mask, the corrected variant computes
`originX = −24` (from the row coordinate), while the claim's formula
`faceCol − trunc(0.8 · width/2)` yields `76`. -/
theorem C3_placement_origin_counterexample :
    (alignFaceV2 (fun _ _ => (0 : ℚ)) 1 200 200 ⟨0, 100, 80, 10⟩ ⟨0, 0⟩ ⟨0, 0⟩ 0).1.tx = -24 ∧
    (⟨0, 100, 80, 10⟩ : Detection ℚ).col
      - trunc ((alignFaceV2 (fun _ _ => (0 : ℚ)) 1 200 200
          ⟨0, 100, 80, 10⟩ ⟨0, 0⟩ ⟨0, 0⟩ 0).1.width / 2 * 0.8) = 76 ∧
    (-24 : ℤ) ≠ 76 := by
  have harg : (200 : ℚ) * updateImgScale 200 200 80 0 * 0.75 / 2 * 0.8
      = ((24 : ℤ) : ℚ) := by
    norm_num [updateImgScale]
  refine ⟨?_, ?_, by decide⟩
  · show (0 : ℤ) - trunc ((200 : ℚ) * updateImgScale 200 200 80 0 * 0.75 / 2 * 0.8) = -24
    rw [trunc_eq_of_eq_intCast harg]
    decide
  · show (100 : ℤ) - trunc ((200 : ℚ) * updateImgScale 200 200 80 0 * 0.75 / 2 * 0.8) = 76
    rw [trunc_eq_of_eq_intCast harg]
    decide

/-- C5: the end-to-end scenario — one detection `(row 100, col 100,
scale 80, score 10)`, 200×200 mask, landmarks `p1 = (130, 90)`,
`p2 = (128, 110)` — yields `imgScale = 2/5`, a `60×60` resize,
`angle = 1 − atan2(20, −2)·180/π/90`, and origin `(70, 101)`; the full
trace is red outline, mask open, composite of exactly that transform. -/
theorem C5_end_to_end_scenario {K : Type} [LinearOrderedField K] [FloorRing K]
    (atan2 : ℤ → ℤ → K) (pi : K) :
    drawFaceV1 atan2 pi 200 200 ⟨100, 100, 80, 10⟩ ⟨130, 90, 0⟩ ⟨128, 110, 0⟩ 0 =
      ([.strokeRect 60 60 80 80 2 ⟨255, 0, 0, 255⟩, .openMask,
        .drawImage ⟨1 - atan2 20 (-2) * 180 / pi / 90, 60, 60, 60, 60, 70, 101⟩],
       2 / 5) := by
  have h10 : (10 : K) > 5 := by norm_num
  have hs : updateImgScale (K := K) 200 200 80 0 = 80 / 200 := by
    norm_num [updateImgScale]
  have hw : (200 : K) * updateImgScale (K := K) 200 200 80 0 * 0.75 = 60 := by
    rw [hs]; norm_num
  have h6 : trunc ((60 : K)) = (60 : ℤ) := trunc_eq_of_eq_intCast (by norm_num)
  have h3 : trunc ((30 : K)) = (30 : ℤ) := trunc_eq_of_eq_intCast (by norm_num)
  have htd : Int.tdiv 80 2 = 40 := by decide
  simp only [drawFaceV1, alignFaceV1, maskAngle, faceBoxRect, if_pos h10, hw, hs]
  norm_num [h6, h3, htd]

end Facemask
